import Mathlib

/-!
A shallow embedding in Lean 4 of the core logic of LiveChatter
(`src/livechatter.py`): the stream-id extractor, the message buffer and its
dual-mode dispatch, the Summarizer prompt construction and fail-soft error
handling, and the chat-reader ingestion loop, together with theorems about
them.  All definitions are translated from the source; time is measured in
deciseconds (tenths of a second) in the reader model and in seconds (as
integers) in the scheduler model.
-/

namespace LiveChatter

/-- Normalized chat message, as built in `ChatReader.run` and consumed by
`MainWindow._on_message` / `Summarizer.summarize`.  Mirrors the dict
`{"author": .., "text": .., "type": .., "is_moderator": .., "is_verified": ..}`. -/
structure ChatMsg where
  author : String
  text : String
  type : String
  is_moderator : Bool
  is_verified : Bool
deriving DecidableEq

/-- `CHAT_MODES[0]` in the source. -/
def CHAT_MODE_STANDARD : String := "Standard (read messages)"

/-- `CHAT_MODES[1]` in the source. -/
def CHAT_MODE_SUMMARIES : String := "Summaries (periodic)"

/-- The `CHAT_MODES` list from the source. -/
def CHAT_MODES : List String := [CHAT_MODE_STANDARD, CHAT_MODE_SUMMARIES]

/-! ## Stream identifier extraction (`extract_youtube_video_id`, lines 207-215)

Strings are modelled as `List Char`; `pyStrip` models Python `str.strip()`,
`fullmatchId` models `re.fullmatch(r"[A-Za-z0-9_-]{11}", s)`, and
`searchLitId lit s` models `re.search(lit + r"([A-Za-z0-9_-]{11})", s)` for a
literal `lit` (leftmost match; the captured group is the 11 class characters
right after the literal). -/

/-- The character class `[A-Za-z0-9_-]`. -/
def idChar (c : Char) : Bool := c.isAlphanum || c = '_' || c = '-'

/-- Python `str.strip()`: drop whitespace from both ends. -/
def pyStrip (l : List Char) : List Char :=
  List.rdropWhile Char.isWhitespace (l.dropWhile Char.isWhitespace)

/-- Python `str.strip()` on `String`. -/
def pyStripS (s : String) : String := ⟨pyStrip s.toList⟩

/-- `re.fullmatch(r"[A-Za-z0-9_-]{11}", s)` succeeds. -/
def fullmatchId (l : List Char) : Bool := l.length == 11 && l.all idChar

/-- Whether the pattern `lit` + eleven `idChar`s matches at the very start of `s`. -/
def matchITAt (lit s : List Char) : Bool :=
  lit.isPrefixOf s && ((s.drop lit.length).take 11).length == 11
    && ((s.drop lit.length).take 11).all idChar

/-- Leftmost `re.search` of `lit` + eleven `idChar`s over `s`, returning the
captured group (the eleven characters). -/
def searchLitId (lit s : List Char) : Option (List Char) :=
  match s with
  | [] => none
  | _ :: t =>
    if matchITAt lit s then some ((s.drop lit.length).take 11)
    else searchLitId lit t

/-- `extract_youtube_video_id` on character lists: strip, try the raw-id
fullmatch, then the three URL patterns in order, first match wins. -/
def extractIdL (input : List Char) : Option (List Char) :=
  let s := pyStrip input
  if fullmatchId s then some s
  else
    match searchLitId "youtu.be/".toList s with
    | some g => some g
    | none =>
      match searchLitId "v=".toList s with
      | some g => some g
      | none => searchLitId "live/".toList s

/-- `extract_youtube_video_id(url_or_id)` (source lines 207-215). -/
def extract_youtube_video_id (s : String) : Option String :=
  (extractIdL s.toList).map fun l => ⟨l⟩

/-- Observable outcome of `MainWindow._on_start` (lines 931-947): the video id
the `ChatReader` is created with (if any), whether the invalid-input warning
was shown, and the sound cues played. -/
structure StartOutcome where
  readerVideo : Option String
  warned : Bool
  soundsPlayed : List String
deriving DecidableEq

/-- `MainWindow._on_start`: strip the url field, extract the video id; on
failure show a warning and create no reader; on success play the "start"
sound and create a `ChatReader` for the id. -/
def on_start (urlText : String) : StartOutcome :=
  match extract_youtube_video_id ⟨pyStrip urlText.toList⟩ with
  | none => ⟨none, true, []⟩
  | some vid => ⟨some vid, false, ["start"]⟩

/-! ## Summarizer (`Summarizer.summarize` and `_summarize_with_openai`,
lines 443-500) -/

/-- Python `"\n".join(lines)`. -/
def joinLines : List String → String
  | [] => ""
  | [a] => a
  | a :: b :: rest => a ++ "\n" ++ joinLines (b :: rest)

/-- The `formatted_chat` local: one `author: text` line per message, in
buffer order, joined by newlines. -/
def formatted_chat (messages : List ChatMsg) : String :=
  joinLines (messages.map fun m => m.author ++ ": " ++ m.text)

/-- The `base_prompt` string literal of `Summarizer.summarize`. -/
def base_prompt : String :=
  "You are a witty and humorous assistant summarizing a YouTube live stream chat. Your summary will be read out loud by a text-to-speech engine, so adopt a conversational and slightly comedic tone. Be concise and keep your summary to a few sentences."

/-- The `task_prompt` used when `len(messages) < 5`. -/
def quiet_task : String :=
  "The chat is very quiet. Make a brief, funny comment about the silence, and then just read out the few messages that have appeared."

/-- The `task_prompt` used when `len(messages) >= 5`. -/
def active_task : String :=
  "The chat is active. Do not list every message. Instead, capture the main vibe. Identify the key topics being discussed, mention any highlights or funny moments, and give a general sense of the conversation."

/-- The `full_prompt` f-string of `Summarizer.summarize`. -/
def full_prompt (messages : List ChatMsg) : String :=
  base_prompt ++ "\n\n"
    ++ (if messages.length < 5 then quiet_task else active_task)
    ++ "\n\nHere are the recent messages:\n" ++ formatted_chat messages

/-- Result of the external OpenAI chat-completion call: either a returned
`message.content` (`none` models Python `None`) or a raised exception with
its message. -/
inductive ProviderOutcome where
  | ok (content : Option String)
  | exn (e : String)
deriving DecidableEq

/-- Environment of `Summarizer._summarize_with_openai`: whether the `openai`
library imported, the configured API key (`""` models a missing key, matching
Python falsiness of `cfg.get("openai_api_key")`), and the external provider
call itself. -/
structure OpenAIEnv where
  openaiInstalled : Bool
  apiKey : String
  respond : String → ProviderOutcome

/-- `Summarizer._summarize_with_openai` (lines 478-500): every failure is
converted into an in-band string; a truthy response is returned stripped. -/
def summarize_with_openai (env : OpenAIEnv) (prompt_text : String) : String :=
  if !env.openaiInstalled then
    "(OpenAI library not installed. Please run: pip install openai)"
  else if env.apiKey = "" then
    "(OpenAI API key is not set in Options)"
  else
    match env.respond prompt_text with
    | .exn e => "(OpenAI API error: " ++ e ++ ")"
    | .ok none => "(OpenAI returned an empty summary)"
    | .ok (some s) =>
      if s = "" then "(OpenAI returned an empty summary)" else pyStripS s

/-- `Summarizer.summarize` (lines 447-476): empty batch returns the fixed
filler; otherwise builds `full_prompt` and calls the provider. -/
def summarize (env : OpenAIEnv) (messages : List ChatMsg) : String :=
  if messages = [] then "It's been quiet. No new messages to summarize."
  else summarize_with_openai env (full_prompt messages)

/-! ## MainWindow dispatch (`_on_message`, `_maybe_do_summary`,
`_on_quick_summary`) -/

/-- Observable effects of one `MainWindow` handler call: sound cues played,
lines appended to the chat view, texts sent to `tts.speak`, and the message
batches passed to `Summarizer.summarize`. -/
structure Effects where
  sounds : List String
  viewLines : List String
  speaks : List String
  summarizeBatches : List (List ChatMsg)
deriving DecidableEq

/-- No observable effect. -/
def noEffects : Effects := ⟨[], [], [], []⟩

/-- The `MainWindow` state touched by the three handlers: the current chat
mode, the summary-interval spinbox value (minutes, spinbox range 1-120), the
quick-summary-count spinbox value (range 5-500, default 50), the
`last_summary_ts` baseline and the `pending_messages` buffer.  Timestamps are
seconds as integers. -/
structure WinState where
  chat_mode : String
  summary_interval : Int
  quick_summary_count : Nat
  last_summary_ts : Int
  pending_messages : List ChatMsg
deriving DecidableEq

/-- The sound chosen for a message in standard mode (lines 970-979). -/
def message_sound (msg : ChatMsg) : String :=
  if msg.type = "superChat" ∨ msg.type = "superSticker" then "donation"
  else if msg.is_moderator then "moderator"
  else if msg.is_verified then "verified"
  else "chat"

/-- `MainWindow._on_message` (lines 964-985): append to the buffer always; in
standard mode play a sound, append `author: text` to the view and speak it;
in summaries mode only log `[msg] author: text`. -/
def on_message (st : WinState) (msg : ChatMsg) : WinState × Effects :=
  let st2 := { st with pending_messages := st.pending_messages ++ [msg] }
  if st.chat_mode = CHAT_MODE_STANDARD then
    (st2, ⟨[message_sound msg], [msg.author ++ ": " ++ msg.text],
      [msg.author ++ ": " ++ msg.text], []⟩)
  else
    (st2, ⟨[], ["[msg] " ++ msg.author ++ ": " ++ msg.text], [], []⟩)

/-- Python `l[-n:]` for the quick-summary suffix read (`l[-0:]` is the whole
list). -/
def pyLastSlice (n : Nat) (l : List ChatMsg) : List ChatMsg :=
  if n = 0 then l else l.drop (l.length - n)

/-- `MainWindow._on_quick_summary` (lines 995-1013): empty buffer narrates a
fixed text and never calls the summarizer; otherwise summarize the last
`quick_summary_count` messages, leaving the state untouched. -/
def on_quick_summary (summarizeFn : List ChatMsg → String) (st : WinState) :
    WinState × Effects :=
  if st.pending_messages = [] then
    (st, ⟨[], ["[Quick Summary] No recent messages to summarize."],
      ["No recent messages to summarize."], []⟩)
  else
    let recent := pyLastSlice st.quick_summary_count st.pending_messages
    let summary := summarizeFn recent
    (st, ⟨["summary"], ["[Quick Summary]\n" ++ summary ++ "\n"], [summary],
      [recent]⟩)

/-- `MainWindow._maybe_do_summary` (lines 1037-1048): in summaries mode, when
at least `max 1 interval` minutes elapsed since `last_summary_ts` and the
buffer is non-empty, drain the whole buffer, reset the baseline to `now` and
summarize the drained batch.  (The source calls `time.time()` twice inside
one timer tick; both reads are modelled as the same instant `now`.) -/
def maybe_do_summary (summarizeFn : List ChatMsg → String) (now : Int)
    (st : WinState) : WinState × Effects :=
  if st.chat_mode ≠ CHAT_MODE_SUMMARIES then (st, noEffects)
  else
    let mins : Int := max 1 st.summary_interval
    if now - st.last_summary_ts ≥ mins * 60 ∧ st.pending_messages ≠ [] then
      let msgs := st.pending_messages
      let summary := summarizeFn msgs
      ({ st with pending_messages := [], last_summary_ts := now },
        ⟨["summary"], ["[Summary]\n" ++ summary ++ "\n"], [summary], [msgs]⟩)
    else (st, noEffects)

/-! ## Buffer trace semantics (for the drain/append atomicity claim)

Appends (`_on_message` line 967) and drains (`_maybe_do_summary` lines
1043-1044: `copy()` then `clear()`) are serialized on the Qt main thread;
a run of the buffer is therefore a sequence of these two operations. -/

/-- One serialized buffer operation. -/
inductive BufOp where
  | append (m : ChatMsg)
  | drain
deriving DecidableEq

/-- Buffer contents plus the drained batches so far. -/
structure BufTraceState where
  buffer : List ChatMsg
  batches : List (List ChatMsg)
deriving DecidableEq

/-- Effect of one operation: `append` pushes at the end; `drain` takes the
whole buffer as the next batch and clears it. -/
def applyOp (st : BufTraceState) : BufOp → BufTraceState
  | .append m => { st with buffer := st.buffer ++ [m] }
  | .drain => ⟨[], st.batches ++ [st.buffer]⟩

/-- Run a sequence of operations from the empty buffer. -/
def applyOps (ops : List BufOp) : BufTraceState :=
  ops.foldl applyOp ⟨[], []⟩

/-- All messages appended by a sequence of operations, in order. -/
def appendedMsgs : List BufOp → List ChatMsg
  | [] => []
  | .append m :: t => m :: appendedMsgs t
  | .drain :: t => appendedMsgs t

/-! ## ChatReader ingestion loop (`ChatReader.run`, lines 513-584)

The pytchat branch is modelled as a step machine; each step is one
program point of the loop, with the time it consumes in deciseconds.
`checkOuter` is the outer `while not self._stop.is_set()`; `connectP` is
`pytchat.create` (an exception there goes to the backoff check, via
`except`/`finally`); `pollCheck` is the inner `while chat.is_alive() and not
self._stop.is_set()`; `pollBody` is draining `chat.get().items` plus
`time.sleep(0.5)`; `postInner` is the `if self._stop.is_set(): break` after
the inner loop (a thrown mid-poll exception is modelled as liveness loss);
`backoffCheck` is `if not self._stop.is_set():`; `backoffSleep` is the plain
`time.sleep(10)`, which consults nothing until it completes; `stoppedP` is
the `self.stopped.emit()` exit. -/

/-- Program points of the pytchat loop. -/
inductive ReaderPhase where
  | checkOuter
  | connectP
  | pollCheck
  | pollBody
  | postInner
  | backoffCheck
  | backoffSleep
  | stoppedP
deriving DecidableEq

/-- Oracle inputs for one step: the current value of the stop flag, of
`chat.is_alive()`, and whether `pytchat.create` succeeds. -/
structure StepIn where
  stopFlag : Bool
  alive : Bool
  connectOk : Bool
deriving DecidableEq

/-- One step of the loop: next program point and elapsed deciseconds. -/
def readerStep (ph : ReaderPhase) (i : StepIn) : ReaderPhase × Nat :=
  match ph with
  | .checkOuter => if i.stopFlag then (.stoppedP, 0) else (.connectP, 0)
  | .connectP => if i.connectOk then (.pollCheck, 0) else (.backoffCheck, 0)
  | .pollCheck => if i.alive && !i.stopFlag then (.pollBody, 0) else (.postInner, 0)
  | .pollBody => (.pollCheck, 5)
  | .postInner => if i.stopFlag then (.stoppedP, 0) else (.backoffCheck, 0)
  | .backoffCheck => if i.stopFlag then (.checkOuter, 0) else (.backoffSleep, 0)
  | .backoffSleep => (.checkOuter, 100)
  | .stoppedP => (.stoppedP, 0)

/-- Run the loop over a list of per-step oracle inputs, accumulating time. -/
def runReader (ph : ReaderPhase) : List StepIn → ReaderPhase × Nat
  | [] => (ph, 0)
  | i :: rest =>
    let s := readerStep ph i
    let r := runReader s.1 rest
    (r.1, s.2 + r.2)

/-! ## Fallback backend (`chat-downloader` branch, lines 554-581) -/

/-- Raw event from the fallback backend. -/
structure RawFb where
  message_type : String
  author_name : String
  message : String
deriving DecidableEq

/-- Python substring containment `needle in hay`. -/
def strIn (needle hay : List Char) : Bool :=
  match hay with
  | [] => needle.isEmpty
  | _ :: t => needle.isPrefixOf hay || strIn needle t

/-- Python `str.lower()` (ASCII case folding suffices here). -/
def pyLower (l : List Char) : List Char := l.map Char.toLower

/-- Error classification of the fallback branch: `"disabled" in emsg.lower()`
yields the specific chat-disabled message, anything else a generic one. -/
def classify_downloader_error (emsg : String) : String :=
  if strIn "disabled".toList (pyLower emsg.toList) then
    "Live chat is disabled for this stream."
  else "Chat downloader error: " ++ emsg

/-- Observable effects of the fallback branch. -/
structure FbEffects where
  emitted : List ChatMsg
  errors : List String
  stoppedEmitted : Bool
deriving DecidableEq

/-- The fallback run: normalize and emit the `text_message` events delivered
before the iterator ends or raises; on an exception emit its classification;
in every case emit `stopped` and return (there is no retry loop in this
branch). -/
def chat_downloader_run (items : List RawFb) (exn : Option String) : FbEffects :=
  let emitted := (items.filter fun m => m.message_type == "text_message").map
    fun m => ⟨m.author_name, m.message, "textMessage", false, false⟩
  match exn with
  | none => ⟨emitted, [], true⟩
  | some e => ⟨emitted, [classify_downloader_error e], true⟩

/-! ## Sample values used by witness theorems -/

/-- The message `{a, "hi", plain}` of the real-time scenario. -/
def mA : ChatMsg := ⟨"a", "hi", "textMessage", false, false⟩

/-- Second sample message. -/
def mB : ChatMsg := ⟨"b", "yo", "textMessage", false, false⟩

/-- Third sample message. -/
def mC : ChatMsg := ⟨"c", "hey", "textMessage", false, false⟩

/-- Environment whose provider call always raises. -/
def envErr : OpenAIEnv := ⟨true, "k", fun _ => .exn "boom"⟩

/-- Environment whose provider call succeeds. -/
def envOk : OpenAIEnv := ⟨true, "k", fun _ => .ok (some "a summary")⟩

/-- Sample scheduler state in summaries mode. -/
def stPeriodic : WinState := ⟨CHAT_MODE_SUMMARIES, 1, 50, 0, [mA, mB, mC]⟩

/-- Sample state in standard (real-time) mode with an empty buffer. -/
def stStandard : WinState := ⟨CHAT_MODE_STANDARD, 5, 50, 0, []⟩

/-! ## Lemmas about id extraction -/

lemma idChar_not_whitespace {c : Char} (h : idChar c = true) :
    c.isWhitespace = false := by
  cases hw : c.isWhitespace with
  | false => rfl
  | true =>
    exfalso
    have hw2 : ((c = ' ' ∨ c = '\t') ∨ c = '\r') ∨ c = '\n' := by
      simpa [Char.isWhitespace] using hw
    rcases hw2 with ((h1 | h1) | h1) | h1 <;> subst h1 <;> exact absurd h (by decide)

lemma pyStrip_eq_self {l : List Char} (h : l.all idChar = true) : pyStrip l = l := by
  have hall : ∀ c ∈ l, idChar c = true := by simpa [List.all_eq_true] using h
  have h1 : l.dropWhile Char.isWhitespace = l := by
    rw [List.dropWhile_eq_self_iff]
    intro hl
    have hm : l[0] ∈ l := List.getElem_mem hl
    simp [idChar_not_whitespace (hall _ hm)]
  have h2 : List.rdropWhile Char.isWhitespace l = l := by
    rw [List.rdropWhile_eq_self_iff]
    intro hl
    simp [idChar_not_whitespace (hall _ (List.getLast_mem hl))]
  rw [pyStrip, h1, h2]

lemma pyStrip_idem (l : List Char) : pyStrip (pyStrip l) = pyStrip l := by
  rw [pyStrip, pyStrip]
  have hdwu : (l.dropWhile Char.isWhitespace).dropWhile Char.isWhitespace
      = l.dropWhile Char.isWhitespace := List.dropWhile_idempotent _ _
  set u := l.dropWhile Char.isWhitespace with hu
  set v := List.rdropWhile Char.isWhitespace u with hv
  have hpre : v <+: u := List.rdropWhile_prefix _ _
  have hdwv : v.dropWhile Char.isWhitespace = v := by
    cases hvc : v with
    | nil => simp
    | cons a v2 =>
      obtain ⟨t, ht⟩ := hpre
      have hu2 : u = a :: (v2 ++ t) := by rw [← ht, hvc]; simp
      have ha : Char.isWhitespace a = false := by
        cases hx : Char.isWhitespace a with
        | false => rfl
        | true =>
          exfalso
          rw [hu2, List.dropWhile_cons, if_pos hx] at hdwu
          have hle : ((v2 ++ t).dropWhile Char.isWhitespace).length ≤ (v2 ++ t).length :=
            (List.dropWhile_suffix Char.isWhitespace).sublist.length_le
          rw [hdwu] at hle
          simp at hle
      rw [List.dropWhile_cons, if_neg (by simp [ha])]
  rw [hdwv, List.rdropWhile_idempotent]

lemma extractIdL_pyStrip (t : List Char) : extractIdL (pyStrip t) = extractIdL t := by
  simp only [extractIdL, pyStrip_idem]

lemma searchLitId_some {lit s g : List Char} (h : searchLitId lit s = some g) :
    g.length = 11 ∧ g.all idChar = true := by
  induction s with
  | nil => simp [searchLitId] at h
  | cons a t ih =>
    rw [searchLitId] at h
    split at h
    next hm =>
      have hg := Option.some.inj h
      simp only [matchITAt, Bool.and_eq_true, beq_iff_eq] at hm
      exact hg ▸ ⟨hm.1.2, hm.2⟩
    next => exact ih h

lemma extractIdL_some {input g : List Char} (h : extractIdL input = some g) :
    g.length = 11 ∧ g.all idChar = true := by
  simp only [extractIdL] at h
  split at h
  next hc =>
    have hg := Option.some.inj h
    simp only [fullmatchId, Bool.and_eq_true, beq_iff_eq] at hc
    exact hg ▸ ⟨hc.1, hc.2⟩
  next =>
    split at h
    next hs => exact searchLitId_some (hs.trans (congrArg some (Option.some.inj h)))
    next =>
      split at h
      next hs => exact searchLitId_some (hs.trans (congrArg some (Option.some.inj h)))
      next => exact searchLitId_some h

lemma extract_some_inv {s : String} {r : String}
    (h : extract_youtube_video_id s = some r) :
    extractIdL s.toList = some r.data := by
  unfold extract_youtube_video_id at h
  cases hg : extractIdL s.toList with
  | none => rw [hg] at h; simp at h
  | some g =>
    rw [hg] at h
    have := Option.some.inj h
    rw [← this]

lemma extract_none_inv {s : String}
    (h : extract_youtube_video_id s = none) :
    extractIdL s.toList = none := by
  unfold extract_youtube_video_id at h
  cases hg : extractIdL s.toList with
  | none => rfl
  | some g => rw [hg] at h; simp at h

/-- C9: stream-id extraction accepts an 11-character raw id or a URL with
`youtu.be/<id>`, `v=<id>` or `live/<id>` (first match wins); concretely,
`"https://www.youtu.be/dQw4w9WgXcQ"` yields `"dQw4w9WgXcQ"` and
`"not a url"` yields no match; on a failed extraction `_on_start` warns and
creates no reader and plays no sound (no session is created before any
connection attempt). -/
theorem extract_id_scenarios_and_rejection (url : String)
    (h : extract_youtube_video_id url = none) :
    extract_youtube_video_id "https://www.youtu.be/dQw4w9WgXcQ" = some "dQw4w9WgXcQ"
      ∧ extract_youtube_video_id "not a url" = none
      ∧ on_start url = ⟨none, true, []⟩ := by
  refine ⟨by decide, by decide, ?_⟩
  unfold on_start
  have h0 : extractIdL url.toList = none := extract_none_inv h
  have h1 : extract_youtube_video_id ⟨pyStrip url.toList⟩ = none := by
    unfold extract_youtube_video_id
    rw [show (String.mk (pyStrip url.toList)).toList = pyStrip url.toList from rfl,
      extractIdL_pyStrip, h0]
    rfl
  rw [h1]

/-- Witness for `extract_id_scenarios_and_rejection` at `"not a url"`. -/
theorem extract_id_scenarios_and_rejection_witness :
    extract_youtube_video_id "not a url" = none ∧
      (extract_youtube_video_id "https://www.youtu.be/dQw4w9WgXcQ" = some "dQw4w9WgXcQ"
        ∧ extract_youtube_video_id "not a url" = none
        ∧ on_start "not a url" = ⟨none, true, []⟩) :=
  ⟨by decide, extract_id_scenarios_and_rejection "not a url" (by decide)⟩

/-- C10: successful extraction is idempotent: the returned id is an
11-character string over `[A-Za-z0-9_-]`, and feeding it back into
`extract_youtube_video_id` returns it unchanged. -/
theorem extract_id_idempotent (s r : String)
    (h : extract_youtube_video_id s = some r) :
    r.length = 11 ∧ r.data.all idChar = true
      ∧ extract_youtube_video_id r = some r := by
  have hg : extractIdL s.toList = some r.data := extract_some_inv h
  obtain ⟨hlen, hall⟩ := extractIdL_some hg
  refine ⟨hlen, hall, ?_⟩
  unfold extract_youtube_video_id
  have he : extractIdL r.toList = some r.data := by
    simp only [extractIdL]
    rw [show r.toList = r.data from rfl, pyStrip_eq_self hall]
    have hfm : fullmatchId r.data = true := by
      simp [fullmatchId, hlen, hall]
    rw [if_pos hfm]
  rw [he]
  rfl

/-- Witness for `extract_id_idempotent` at the concrete URL scenario. -/
theorem extract_id_idempotent_witness :
    extract_youtube_video_id "https://www.youtu.be/dQw4w9WgXcQ" = some "dQw4w9WgXcQ" ∧
      (("dQw4w9WgXcQ" : String).length = 11
        ∧ ("dQw4w9WgXcQ" : String).data.all idChar = true
        ∧ extract_youtube_video_id "dQw4w9WgXcQ" = some "dQw4w9WgXcQ") :=
  ⟨by decide, extract_id_idempotent "https://www.youtu.be/dQw4w9WgXcQ" "dQw4w9WgXcQ" (by decide)⟩

/-! ## Buffer trace: no loss, no duplication, drain atomicity -/

lemma applyOps_foldl (ops : List BufOp) (st : BufTraceState) :
    (ops.foldl applyOp st).batches.flatten ++ (ops.foldl applyOp st).buffer
      = st.batches.flatten ++ (st.buffer ++ appendedMsgs ops) := by
  induction ops generalizing st with
  | nil => simp [appendedMsgs]
  | cons op t ih =>
    cases op with
    | append m =>
      rw [List.foldl_cons, ih]
      simp [applyOp, appendedMsgs]
    | drain =>
      rw [List.foldl_cons, ih]
      simp [applyOp, appendedMsgs]

lemma batches_extend (ops : List BufOp) (st : BufTraceState) :
    ∃ ext, (ops.foldl applyOp st).batches = st.batches ++ ext := by
  induction ops generalizing st with
  | nil => exact ⟨[], by simp⟩
  | cons op t ih =>
    obtain ⟨ext, hext⟩ := ih (applyOp st op)
    cases op with
    | append m => exact ⟨ext, by rw [List.foldl_cons, hext]; rfl⟩
    | drain =>
      refine ⟨[st.buffer] ++ ext, ?_⟩
      rw [List.foldl_cons, hext]
      simp [applyOp]

/-- C1: a periodic drain takes exactly the messages appended before it and
clears the buffer atomically with respect to further appends.  First
conjunct: over any serialized operation sequence, the concatenation of all
drained batches followed by the remaining buffer equals the appended
messages in arrival order — so no message is lost, none is duplicated across
batches, and order is preserved.  Second conjunct: in any sequence
`pre ++ drain :: post`, that drain's batch is exactly the buffer reached
after `pre`, and operations in `post` (later appends or drains) do not
change it. -/
theorem drain_no_loss_no_dup (ops pre post : List BufOp) :
    ((applyOps ops).batches.flatten ++ (applyOps ops).buffer = appendedMsgs ops)
    ∧ (applyOps (pre ++ BufOp.drain :: post)).batches.take
        ((applyOps pre).batches.length + 1)
      = (applyOps pre).batches ++ [(applyOps pre).buffer] := by
  constructor
  · have := applyOps_foldl ops ⟨[], []⟩
    simpa [applyOps] using this
  · have hsplit : applyOps (pre ++ BufOp.drain :: post)
        = post.foldl applyOp (applyOp (applyOps pre) .drain) := by
      simp [applyOps, List.foldl_append]
    obtain ⟨ext, hext⟩ := batches_extend post (applyOp (applyOps pre) .drain)
    rw [hsplit, hext]
    show (((applyOps pre).batches ++ [(applyOps pre).buffer]) ++ ext).take _ = _
    rw [show (applyOps pre).batches.length + 1
        = ((applyOps pre).batches ++ [(applyOps pre).buffer]).length by simp]
    exact List.take_left _ _

/-! ## Periodic flush, quick summary, real-time dispatch -/

/-- C2: in summaries mode the periodic check flushes iff at least
`max 1 interval` minutes elapsed since the baseline and the buffer is
non-empty; a flush drains the whole buffer, resets the baseline to `now` and
passes the entire batch to the summarizer exactly once; otherwise (in
particular on an empty buffer) nothing happens and the baseline keeps its
value. -/
theorem periodic_flush_iff (f : List ChatMsg → String) (now : Int) (st : WinState)
    (h : st.chat_mode = CHAT_MODE_SUMMARIES) :
    ((maybe_do_summary f now st).2.summarizeBatches ≠ [] ↔
      (now - st.last_summary_ts ≥ (max 1 st.summary_interval) * 60
        ∧ st.pending_messages ≠ []))
    ∧ (now - st.last_summary_ts ≥ (max 1 st.summary_interval) * 60
        ∧ st.pending_messages ≠ [] →
        maybe_do_summary f now st
          = ({ st with pending_messages := [], last_summary_ts := now },
             ⟨["summary"], ["[Summary]\n" ++ f st.pending_messages ++ "\n"],
              [f st.pending_messages], [st.pending_messages]⟩))
    ∧ (¬(now - st.last_summary_ts ≥ (max 1 st.summary_interval) * 60
        ∧ st.pending_messages ≠ []) →
        maybe_do_summary f now st = (st, noEffects)) := by
  have hmode : ¬ st.chat_mode ≠ CHAT_MODE_SUMMARIES := by simp [h]
  by_cases hc : now - st.last_summary_ts ≥ (max 1 st.summary_interval) * 60
      ∧ st.pending_messages ≠ []
  · have hrun : maybe_do_summary f now st
        = ({ st with pending_messages := [], last_summary_ts := now },
           ⟨["summary"], ["[Summary]\n" ++ f st.pending_messages ++ "\n"],
            [f st.pending_messages], [st.pending_messages]⟩) := by
      unfold maybe_do_summary
      rw [if_neg hmode, if_pos hc]
    refine ⟨?_, fun _ => hrun, fun hn => absurd hc hn⟩
    rw [hrun]
    simpa using hc
  · have hrun : maybe_do_summary f now st = (st, noEffects) := by
      unfold maybe_do_summary
      rw [if_neg hmode, if_neg hc]
    refine ⟨?_, fun hcc => absurd hcc hc, fun _ => hrun⟩
    rw [hrun]
    simpa [noEffects] using hc

/-- Witness for `periodic_flush_iff`: the spec scenario — interval 1 minute,
3 buffered messages, 61 seconds elapsed: exactly one flush, buffer cleared,
baseline reset, summarizer invoked once with the 3 messages. -/
theorem periodic_flush_iff_witness :
    maybe_do_summary (fun _ => "S") 61 stPeriodic
      = (⟨CHAT_MODE_SUMMARIES, 1, 50, 61, []⟩,
         ⟨["summary"], ["[Summary]\nS\n"], ["S"], [[mA, mB, mC]]⟩) :=
  (periodic_flush_iff (fun _ => "S") 61 stPeriodic rfl).2.1 (by decide)

/-- C3: quick summary never mutates the window state (buffer contents and
periodic baseline are untouched); with an empty buffer it narrates the fixed
text and passes no batch to the summarizer; otherwise it passes exactly the
`min K bufferLength` most recent messages, which form a suffix of the buffer
in arrival order. -/
theorem quick_summary_frame (f : List ChatMsg → String) (st : WinState)
    (h5 : 5 ≤ st.quick_summary_count) (h500 : st.quick_summary_count ≤ 500) :
    (on_quick_summary f st).1 = st
    ∧ (st.pending_messages = [] →
        (on_quick_summary f st).2.speaks = ["No recent messages to summarize."]
        ∧ (on_quick_summary f st).2.summarizeBatches = [])
    ∧ (st.pending_messages ≠ [] →
        (on_quick_summary f st).2.summarizeBatches
          = [st.pending_messages.drop
              (st.pending_messages.length - st.quick_summary_count)]
        ∧ (st.pending_messages.drop
            (st.pending_messages.length - st.quick_summary_count)).length
          = min st.quick_summary_count st.pending_messages.length
        ∧ st.pending_messages.take
            (st.pending_messages.length - st.quick_summary_count)
          ++ st.pending_messages.drop
            (st.pending_messages.length - st.quick_summary_count)
          = st.pending_messages) := by
  refine ⟨?_, ?_, ?_⟩
  · by_cases hp : st.pending_messages = []
    · unfold on_quick_summary; rw [if_pos hp]
    · unfold on_quick_summary; rw [if_neg hp]
  · intro hp
    exact ⟨by simp [on_quick_summary, hp], by simp [on_quick_summary, hp]⟩
  · intro hp
    have hslice : pyLastSlice st.quick_summary_count st.pending_messages
        = st.pending_messages.drop
            (st.pending_messages.length - st.quick_summary_count) := by
      unfold pyLastSlice
      rw [if_neg (by omega)]
    refine ⟨?_, ?_, ?_⟩
    · simp [on_quick_summary, hp, hslice]
    · rw [List.length_drop]; omega
    · exact List.take_append_drop _ _

/-- Witness for `quick_summary_frame`: a non-empty buffer of 3 messages with
count 50: state unchanged and the whole buffer is the batch. -/
theorem quick_summary_frame_witness :
    (on_quick_summary (fun _ => "S") stPeriodic).1 = stPeriodic
    ∧ (on_quick_summary (fun _ => "S") stPeriodic).2.summarizeBatches
        = [[mA, mB, mC]] :=
  ⟨(quick_summary_frame (fun _ => "S") stPeriodic (by decide) (by decide)).1,
   ((quick_summary_frame (fun _ => "S") stPeriodic (by decide) (by decide)).2.2
      (by decide)).1⟩

/-- C8: in real-time (standard) mode every incoming message is appended to
the buffer (which grows by one), narrated exactly once as `author: text`,
and no summarization call is made. -/
theorem on_message_realtime (st : WinState) (msg : ChatMsg)
    (h : st.chat_mode = CHAT_MODE_STANDARD) :
    on_message st msg
      = ({ st with pending_messages := st.pending_messages ++ [msg] },
         ⟨[message_sound msg], [msg.author ++ ": " ++ msg.text],
          [msg.author ++ ": " ++ msg.text], []⟩)
    ∧ (on_message st msg).1.pending_messages.length
        = st.pending_messages.length + 1
    ∧ (on_message st msg).2.speaks = [msg.author ++ ": " ++ msg.text]
    ∧ (on_message st msg).2.summarizeBatches = [] := by
  have h0 : on_message st msg
      = ({ st with pending_messages := st.pending_messages ++ [msg] },
         ⟨[message_sound msg], [msg.author ++ ": " ++ msg.text],
          [msg.author ++ ": " ++ msg.text], []⟩) := by
    unfold on_message
    rw [if_pos h]
  refine ⟨h0, ?_, ?_, ?_⟩ <;> rw [h0] <;> simp

/-- Witness for `on_message_realtime`: the spec scenario `[{a, "hi", plain}]`
in real-time mode — one narration `"a: hi"`, buffer length 1, no
summarization call. -/
theorem on_message_realtime_witness :
    (on_message stStandard mA).2.speaks = ["a: hi"]
    ∧ (on_message stStandard mA).1.pending_messages.length = 1
    ∧ (on_message stStandard mA).2.summarizeBatches = [] :=
  ⟨(on_message_realtime stStandard mA rfl).2.2.1,
   (on_message_realtime stStandard mA rfl).2.1,
   (on_message_realtime stStandard mA rfl).2.2.2⟩

/-! ## Summarizer prompt and fail-soft behaviour -/

lemma joinLines_append (l1 l2 : List String) (h1 : l1 ≠ []) (h2 : l2 ≠ []) :
    joinLines (l1 ++ l2) = joinLines l1 ++ "\n" ++ joinLines l2 := by
  induction l1 with
  | nil => exact absurd rfl h1
  | cons a t ih =>
    cases t with
    | nil =>
      cases l2 with
      | nil => exact absurd rfl h2
      | cons b r => simp [joinLines]
    | cons c t2 =>
      have hrec := ih (by simp)
      simp only [List.cons_append] at hrec ⊢
      rw [joinLines, hrec, joinLines]
      simp [String.append_assoc]

/-- C4: for a non-empty batch the summarizer builds exactly one prompt and
hands it to the provider; the task instruction branches deterministically at
batch size 5 (`< 5` quiet-chat, `≥ 5` capture-the-vibe); the messages are
serialized one `author: text` line per message, newline-joined in buffer
order (singleton and concatenation laws pin the serialization down). -/
theorem summarize_prompt_branches (env : OpenAIEnv) (m : ChatMsg)
    (msgs ms1 ms2 : List ChatMsg) (h : msgs ≠ []) (h1 : ms1 ≠ []) (h2 : ms2 ≠ []) :
    summarize env msgs = summarize_with_openai env (full_prompt msgs)
    ∧ (msgs.length < 5 →
        full_prompt msgs = base_prompt ++ "\n\n" ++ quiet_task
          ++ "\n\nHere are the recent messages:\n" ++ formatted_chat msgs)
    ∧ (5 ≤ msgs.length →
        full_prompt msgs = base_prompt ++ "\n\n" ++ active_task
          ++ "\n\nHere are the recent messages:\n" ++ formatted_chat msgs)
    ∧ formatted_chat [m] = m.author ++ ": " ++ m.text
    ∧ formatted_chat (ms1 ++ ms2) = formatted_chat ms1 ++ "\n" ++ formatted_chat ms2 := by
  refine ⟨?_, ?_, ?_, rfl, ?_⟩
  · rw [summarize, if_neg h]
  · intro hlt
    rw [full_prompt, if_pos hlt]
  · intro hge
    rw [full_prompt, if_neg (by omega)]
  · unfold formatted_chat
    rw [List.map_append]
    refine joinLines_append _ _ ?_ ?_ <;> simpa

/-- Witness for `summarize_prompt_branches`: a 2-message batch takes the
quiet-chat instruction. -/
theorem summarize_prompt_branches_witness :
    full_prompt [mA, mB] = base_prompt ++ "\n\n" ++ quiet_task
      ++ "\n\nHere are the recent messages:\n" ++ formatted_chat [mA, mB] :=
  (summarize_prompt_branches envOk mA [mA, mB] [mA] [mB] (by decide) (by decide)
    (by decide)).2.1 (by decide)

/-- C5: summarize is fail-soft: an empty batch returns the fixed filler
string regardless of the provider (no external call is observable); a
missing library, missing API key, or a provider exception each yield the
corresponding human-readable in-band string, so the caller always receives a
displayable string and no exception propagates. -/
theorem summarize_fail_soft (env : OpenAIEnv) (f : String → ProviderOutcome)
    (msgs : List ChatMsg) (e : String) :
    summarize env [] = "It's been quiet. No new messages to summarize."
    ∧ summarize ⟨env.openaiInstalled, env.apiKey, f⟩ [] = summarize env []
    ∧ (env.openaiInstalled = false → msgs ≠ [] →
        summarize env msgs
          = "(OpenAI library not installed. Please run: pip install openai)")
    ∧ (env.openaiInstalled = true → env.apiKey = "" → msgs ≠ [] →
        summarize env msgs = "(OpenAI API key is not set in Options)")
    ∧ (env.openaiInstalled = true → env.apiKey ≠ "" →
        env.respond (full_prompt msgs) = .exn e → msgs ≠ [] →
        summarize env msgs = "(OpenAI API error: " ++ e ++ ")") := by
  refine ⟨rfl, rfl, ?_, ?_, ?_⟩
  · intro hi hm
    rw [summarize, if_neg hm]
    simp [summarize_with_openai, hi]
  · intro hi hk hm
    rw [summarize, if_neg hm]
    simp [summarize_with_openai, hi, hk]
  · intro hi hk hr hm
    rw [summarize, if_neg hm]
    simp [summarize_with_openai, hi, hk, hr]

/-- Witness for `summarize_fail_soft`: a raising provider yields the in-band
error string. -/
theorem summarize_fail_soft_witness :
    summarize envErr [mA] = "(OpenAI API error: boom)" :=
  (summarize_fail_soft envErr (fun _ => ProviderOutcome.exn "x") [mA] "boom").2.2.2.2
    rfl (by decide) rfl (by decide)

/-! ## Ingestion loop: cancellation latency and retry behaviour -/

lemma readerStep_no_stop (ph : ReaderPhase) (i : StepIn)
    (hph : ph ≠ .stoppedP) (hf : i.stopFlag = false) :
    (readerStep ph i).1 ≠ .stoppedP := by
  cases ph with
  | stoppedP => exact absurd rfl hph
  | pollCheck => cases ha : i.alive <;> simp [readerStep, hf, ha]
  | connectP => cases hc : i.connectOk <;> simp [readerStep, hc]
  | checkOuter => simp [readerStep, hf]
  | pollBody => simp [readerStep]
  | postInner => simp [readerStep, hf]
  | backoffCheck => simp [readerStep, hf]
  | backoffSleep => simp [readerStep]

lemma runReader_no_stop (inputs : List StepIn)
    (hf : ∀ i ∈ inputs, i.stopFlag = false) :
    ∀ ph, ph ≠ .stoppedP → (runReader ph inputs).1 ≠ .stoppedP := by
  induction inputs with
  | nil =>
    intro ph hph
    simpa [runReader] using hph
  | cons i rest ih =>
    intro ph hph
    have hfi : i.stopFlag = false := hf i (by simp)
    have hrest : ∀ j ∈ rest, j.stopFlag = false := fun j hj => hf j (by simp [hj])
    have hstep := readerStep_no_stop ph i hph hfi
    simp only [runReader]
    exact ih hrest _ hstep

/-- C6 counterexample: with the stop flag set at the start of the backoff
sleep, the loop is still not stopped after that step — the plain
`time.sleep(10)` consumes 100 deciseconds without consulting the flag, and
the loop only reaches `stopped` after those 100 deciseconds, far more than
the claimed one poll interval (10 deciseconds). -/
theorem backoff_ignores_stop_counterexample :
    readerStep .backoffSleep ⟨true, false, false⟩ = (.checkOuter, 100)
    ∧ (runReader .backoffSleep [⟨true, false, false⟩]).1 ≠ .stoppedP
    ∧ runReader .backoffSleep [⟨true, false, false⟩, ⟨true, false, false⟩]
        = (.stoppedP, 100)
    ∧ ¬ (100 ≤ 10) := by decide

/-- C6 (amended): once the stop flag is set and stays set, the loop reaches
`stopped` within four steps and at most 100 deciseconds (the full backoff
sleep); from every program point other than the backoff sleep it is observed
within 5 deciseconds — one poll interval — but the backoff sleep itself is a
plain uninterruptible `time.sleep(10)`. -/
theorem stop_observed_bounded (ph : ReaderPhase) (a1 c1 a2 c2 a3 c3 a4 c4 : Bool) :
    (runReader ph [⟨true, a1, c1⟩, ⟨true, a2, c2⟩, ⟨true, a3, c3⟩,
        ⟨true, a4, c4⟩]).1 = .stoppedP
    ∧ (runReader ph [⟨true, a1, c1⟩, ⟨true, a2, c2⟩, ⟨true, a3, c3⟩,
        ⟨true, a4, c4⟩]).2 ≤ 100
    ∧ (ph ≠ .backoffSleep →
        (runReader ph [⟨true, a1, c1⟩, ⟨true, a2, c2⟩, ⟨true, a3, c3⟩,
          ⟨true, a4, c4⟩]).2 ≤ 5) := by
  revert a1 c1 a2 c2 a3 c3 a4 c4
  cases ph <;> decide

/-- Witness for `stop_observed_bounded` at the polling point. -/
theorem stop_observed_bounded_witness :
    (runReader .pollBody [⟨true, true, true⟩, ⟨true, true, true⟩,
      ⟨true, true, true⟩, ⟨true, true, true⟩]).2 ≤ 5 :=
  (stop_observed_bounded .pollBody true true true true true true true true).2.2
    (by decide)

/-- C7: as long as the stop flag stays unset the pytchat loop never reaches
`stopped` (transient failures are retried indefinitely, bounded only by
explicit stop), and each retry passes through the full 10-second backoff
window before reconnecting; in the fallback backend an exception whose
message contains "disabled" terminates the session with the specific
chat-disabled classification and `stopped` is emitted (no retry). -/
theorem reader_retries_and_disabled_fatal (inputs : List StepIn)
    (ph : ReaderPhase) (a1 c1 a2 c2 a3 c3 : Bool) (items : List RawFb)
    (e : String) (hf : ∀ i ∈ inputs, i.stopFlag = false)
    (hph : ph ≠ .stoppedP)
    (he : strIn "disabled".toList (pyLower e.toList) = true) :
    (runReader ph inputs).1 ≠ .stoppedP
    ∧ runReader .backoffCheck [⟨false, a1, c1⟩, ⟨false, a2, c2⟩, ⟨false, a3, c3⟩]
        = (.connectP, 100)
    ∧ (chat_downloader_run items (some e)).errors
        = ["Live chat is disabled for this stream."]
    ∧ (chat_downloader_run items (some e)).stoppedEmitted = true := by
  refine ⟨runReader_no_stop inputs hf ph hph, ?_, ?_, ?_⟩
  · revert a1 c1 a2 c2 a3 c3
    decide
  · simp only [chat_downloader_run, classify_downloader_error]
    rw [if_pos he]
  · simp [chat_downloader_run]

/-- Witness for `reader_retries_and_disabled_fatal`. -/
theorem reader_retries_and_disabled_fatal_witness :
    (runReader .checkOuter [⟨false, true, true⟩]).1 ≠ .stoppedP
    ∧ (chat_downloader_run []
        (some "The live chat is disabled for this stream")).errors
      = ["Live chat is disabled for this stream."] :=
  ⟨(reader_retries_and_disabled_fatal [⟨false, true, true⟩] .checkOuter
      false false false false false false []
      "The live chat is disabled for this stream"
      (by decide) (by decide) (by decide)).1,
   (reader_retries_and_disabled_fatal [⟨false, true, true⟩] .checkOuter
      false false false false false false []
      "The live chat is disabled for this stream"
      (by decide) (by decide) (by decide)).2.2.1⟩

end LiveChatter
